import Mathlib

/-!
# Verification of the help-desk rostering web client

Shallow embedding of the client-side auth / HTTP / retry layer of the
help-desk rostering Next.js app, together with theorems settling the
frozen claims about it.  Every definition is translated from the
TypeScript source; browser built-ins (the cookie jar, `localStorage`,
`fetch`, `Date`) are modelled as explicit state or explicit inputs.
-/

namespace HelpDesk

/-- A signed-in user as held by the client auth context
(`src/apps/web/src/lib/auth.tsx`, type `User`; only the fields the
guards consult are carried). -/
structure User where
  id : String
  role : String
  deriving DecidableEq, Repr

/-- Client-side route-guard predicate from `RequireRole.tsx` (lines 38-48):
`allow` is false with no user; otherwise a required role `"assistant"` is
satisfied by role `"assistant"` or `"admin"`, any other required role by an
exact match. -/
def requireRoleAllow (role : String) (user : Option User) : Bool :=
  match user with
  | none => false
  | some u =>
    if role == "assistant" then u.role == "assistant" || u.role == "admin"
    else u.role == role

/-- `String.prototype.startsWith`, computed on the character list (the
byte-level `String.startsWith` primitive does not reduce inside the
kernel, so concrete paths could not be evaluated with it). -/
def strStartsWith (s pre : String) : Bool :=
  go s.data pre.data
where go : List Char → List Char → Bool
  | _, [] => true
  | [], _ :: _ => false
  | c :: cs, p :: ps => c == p && go cs ps

/-- `String.prototype.includes` for a single character, on the character
list. -/
def strContainsChar (s : String) (c : Char) : Bool :=
  s.data.contains c

/-- `isAdminRoute` from the edge middleware (and `lib/routes.ts`). -/
def isAdminRoute (pathname : String) : Bool :=
  pathname == "/admin" || strStartsWith pathname "/admin/"

/-- `isAssistRoute` from the edge middleware (and `lib/routes.ts`). -/
def isAssistRoute (pathname : String) : Bool :=
  pathname == "/assist" || strStartsWith pathname "/assist/"

/-- `isStudentRoute` from the edge middleware (and `lib/routes.ts`). -/
def isStudentRoute (pathname : String) : Bool :=
  pathname == "/student" || strStartsWith pathname "/student/"

/-- `isAuthorizedForPath` from the edge middleware: `undefined` and the
empty role are falsy and rejected; `"student"` is normalized to
`"assistant"`; admin routes demand `"admin"`, student/assist routes accept
`"assistant"` or `"admin"`, any other path is allowed. -/
def isAuthorizedForPath (path : String) (role : Option String) : Bool :=
  match role with
  | none => false
  | some r =>
    if r == "" then false
    else
      let normalized := if r == "student" then "assistant" else r
      if isAdminRoute path then normalized == "admin"
      else if isStudentRoute path || isAssistRoute path then
        normalized == "assistant" || normalized == "admin"
      else true

/-- The claim shapes `verifyToken` extracts from a verified JWT payload
(`role`, `type`, `is_admin`). -/
structure Claims where
  role : Option String
  type : Option String
  is_admin : Option Bool
  deriving Repr

/-- The first operand if it is a truthy JS string, else the second
(JS `a || b` restricted to string-or-undefined values, where `undefined`
and `""` are falsy). -/
def jsOrStr (a b : Option String) : Option String :=
  match a with
  | some s => if s == "" then b else some s
  | none => b

/-- Role resolution performed by the middleware after verification:
`claims.role || undefined`, then `claims.type` when still unset, then
`is_admin ? "admin" : "assistant"` when `is_admin` is carried. -/
def resolveRole (c : Claims) : Option String :=
  match jsOrStr c.role (jsOrStr c.type none) with
  | some r => some r
  | none =>
    match c.is_admin with
    | some b => some (if b then "admin" else "assistant")
    | none => none

/-- Environment configuration the middleware reads at module load
(cookie name, auth mode, dev role — each already lower-cased/defaulted). -/
structure MwEnv where
  cookieName : String
  authMode : String
  authDevRole : String
  deriving DecidableEq, Repr

/-- The two middleware outcomes we observe: pass the request through
(`NextResponse.next()`) or redirect to a path. -/
inductive MwResponse where
  | next : MwResponse
  | redirect (path : String) : MwResponse
  deriving DecidableEq, Repr

/-- First value bound to a key in an association list (browser cookie jar /
`localStorage` read). -/
def assocGet (l : List (String × String)) (k : String) : Option String :=
  match l with
  | [] => none
  | (k', v) :: rest => if k' == k then some v else assocGet rest k

/-- The static-asset skip at the top of the middleware: `_next`, favicon,
images, manifest, robots, sitemap, or any pathname containing a dot. -/
def staticSkip (pathname : String) : Bool :=
  strStartsWith pathname "/_next" ||
  strStartsWith pathname "/favicon" ||
  strStartsWith pathname "/images" ||
  pathname == "/manifest.webmanifest" ||
  pathname == "/robots.txt" ||
  pathname == "/sitemap.xml" ||
  strContainsChar pathname '.'

/-- The edge middleware (`src/unnamed/part_000`).  `verify` is the outcome
of `verifyToken` (`none` models a failed signature/expiry check or missing
secret), `cookies` the request's cookie jar. -/
def middleware (env : MwEnv) (verify : String → Option Claims)
    (cookies : List (String × String)) (pathname : String) : MwResponse :=
  if staticSkip pathname then .next
  else if !(isAdminRoute pathname || isAssistRoute pathname || isStudentRoute pathname) then
    .next
  else if env.authMode == "mock" then
    let role := if env.authDevRole == "admin" then "admin" else "assistant"
    if !isAuthorizedForPath pathname (some role) then .redirect "/unauthorized"
    else .next
  else
    match assocGet cookies env.cookieName with
    | none => .redirect "/auth/login"
    | some token =>
      if token == "" then .redirect "/auth/login"
      else
        match verify token with
        | none => .redirect "/auth/login"
        | some claims =>
          if !isAuthorizedForPath pathname (resolveRole claims) then
            .redirect "/unauthorized"
          else .next

/-! ## Retry policies -/

/-- A thrown JS error as seen by the retry wrappers: either a typed API
error (`ScheduleApiError` / `HttpError`, carrying an HTTP status) or an
untyped network/abort failure. -/
inductive JsError where
  | api (status : Nat) (message : String) : JsError
  | network (message : String) : JsError
  deriving DecidableEq, Repr

/-- The no-retry test in `ApiClient.fetchWithRetry`:
`error instanceof ScheduleApiError && error.statusCode < 500`. -/
def isClientError : JsError → Bool
  | .api status _ => status < 500
  | .network _ => false

/-- The final rethrow in `fetchWithRetry`: a typed error is rethrown
as-is, anything else is wrapped by `createNetworkError` into a typed
error with status `0`. -/
def finalizeError : JsError → JsError
  | .api s m => .api s m
  | .network m => .api 0 ("Network error: " ++ m)

/-- `RETRY_CONFIG` from `scheduleApi.ts`. -/
structure RetryConfig where
  maxAttempts : Nat
  baseDelay : Nat
  maxDelay : Nat
  backoffFactor : Nat
  deriving DecidableEq, Repr

/-- The configured values: 3 attempts, 1000ms base, 5000ms cap, factor 2. -/
def RETRY_CONFIG : RetryConfig :=
  { maxAttempts := 3, baseDelay := 1000, maxDelay := 5000, backoffFactor := 2 }

/-- Observable trace of a retry wrapper run: the final result, how many
times the wrapped call was attempted, and the delays slept (ms, in order). -/
structure RetryTrace (ε : Type) (α : Type) where
  result : Except ε α
  attemptsMade : Nat
  delays : List Nat
  deriving Repr

/-- One unfolding of `ApiClient.fetchWithRetry` from attempt number
`attempt` (1-based); `outcome n` is what the `n`-th fetch+parse attempt
produces (a value, a typed `ScheduleApiError`, or a network failure).
`remaining` is the number of retries still allowed, i.e.
`cfg.maxAttempts - attempt`, so `remaining > 0` is exactly the source's
`attempt < RETRY_CONFIG.maxAttempts` retry condition. -/
def fetchWithRetryGo {α : Type} (cfg : RetryConfig) (outcome : Nat → Except JsError α) :
    Nat → Nat → RetryTrace JsError α
  | attempt, remaining =>
    match outcome attempt with
    | .ok v => ⟨.ok v, 1, []⟩
    | .error e =>
      if isClientError e then ⟨.error e, 1, []⟩
      else
        match remaining with
        | 0 => ⟨.error (finalizeError e), 1, []⟩
        | rem + 1 =>
          let delay := min (cfg.baseDelay * cfg.backoffFactor ^ (attempt - 1)) cfg.maxDelay
          let rest := fetchWithRetryGo cfg outcome (attempt + 1) rem
          ⟨rest.result, rest.attemptsMade + 1, delay :: rest.delays⟩

/-- `ApiClient.fetchWithRetry` (scheduleApi.ts lines 87-158), entered at
attempt 1 with `maxAttempts - 1` retries available. -/
def fetchWithRetry {α : Type} (cfg : RetryConfig) (outcome : Nat → Except JsError α) :
    RetryTrace JsError α :=
  fetchWithRetryGo cfg outcome 1 (cfg.maxAttempts - 1)

/-- The `for (let i = 0; i < attempts; i++)` loop of `retryWithBackoff`
(performance.ts lines 204-213), with `remaining = attempts - i` iterations
left: every failure is remembered as `lastErr`, followed by a
`base * 2 ** i` sleep; after the loop `lastErr` is thrown (`none` models
throwing `undefined` when `attempts = 0`). -/
def retryWithBackoffGo {α : Type} (outcome : Nat → Except JsError α) (base : Nat) :
    Nat → Nat → Option JsError → RetryTrace (Option JsError) α
  | 0, _, lastErr => ⟨.error lastErr, 0, []⟩
  | remaining + 1, i, _ =>
    match outcome i with
    | .ok v => ⟨.ok v, 1, []⟩
    | .error e =>
      let rest := retryWithBackoffGo outcome base remaining (i + 1) (some e)
      ⟨rest.result, rest.attemptsMade + 1, (base * 2 ^ i) :: rest.delays⟩

/-- `retryWithBackoff(fn, attempts = 3, base = 400)` from
performance.ts lines 204-213: note it inspects no status at all. -/
def retryWithBackoff {α : Type} (outcome : Nat → Except JsError α)
    (attempts base : Nat) : RetryTrace (Option JsError) α :=
  retryWithBackoffGo outcome base attempts 0 none

/-! ## JSON values and the HTTP client wrappers -/

/-- A parsed JSON value (numbers restricted to integers; the wrappers
never compute with them). -/
inductive Json where
  | null : Json
  | bool (b : Bool) : Json
  | num (n : Int) : Json
  | str (s : String) : Json
  | arr (xs : List Json) : Json
  | obj (fields : List (String × Json)) : Json

/-- Property access `body[k]` on a JSON value: `none` models `undefined`
(missing key or non-object receiver). -/
def jsonLookup : Json → String → Option Json
  | .obj fields, k => go fields k
  | _, _ => none
where go : List (String × Json) → String → Option Json
  | [], _ => none
  | (k', v) :: rest, k => if k' == k then some v else go rest k

/-- JS truthiness of a JSON value (`undefined` handled by callers). -/
def jsTruthy : Json → Bool
  | .null => false
  | .bool b => b
  | .num n => n != 0
  | .str s => s != ""
  | .arr _ => true
  | .obj _ => true

/-- `body?.success === true`. -/
def isSuccessTrue (body : Json) : Bool :=
  match jsonLookup body "success" with
  | some (.bool true) => true
  | _ => false

/-- `body?.success === false`. -/
def isSuccessFalse (body : Json) : Bool :=
  match jsonLookup body "success" with
  | some (.bool false) => true
  | _ => false

/-- `response.ok`: HTTP status in [200, 299]. -/
def respOk (status : Nat) : Bool :=
  200 ≤ status && status ≤ 299

/-- An HTTP response as the wrappers observe it: status, whether the
`content-type` header indicates JSON, and the parsed body (`none` when
`response.json()` rejects). -/
structure Resp where
  status : Nat
  contentTypeJson : Bool
  jsonBody : Option Json

/-- The body value `apiV2Fetch` works with:
`isJson ? await response.json().catch(() => ({})) : {}`. -/
def effBody (r : Resp) : Json :=
  if r.contentTypeJson then r.jsonBody.getD (.obj []) else .obj []

/-- `getErrorMessage` from `scheduleApi.ts` (v2 client): default
user-facing message per status code. -/
def getErrorMessage (status : Nat) : String :=
  if status == 400 then "Invalid request. Please check your input."
  else if status == 401 then "You are not authorized. Please sign in again."
  else if status == 403 then "You do not have permission to perform this action."
  else if status == 404 then "The requested resource was not found."
  else if status == 422 then "The provided data is invalid. Please check your input."
  else if status == 429 then "Too many requests. Please try again later."
  else if status == 500 then "Server error. Please try again later."
  else if status == 503 then "Service temporarily unavailable. Please try again later."
  else "An unexpected error occurred. Please try again."

/-- `ScheduleHttpError(status, message, body)` raised by `apiV2Fetch`
(the runtime value of `message` is whatever `body?.message` held, hence
`Json`). -/
structure ScheduleHttpError where
  status : Nat
  message : Json
  body : Json

/-- `body?.message || getErrorMessage(response.status)`. -/
def errMessageV2 (body : Json) (status : Nat) : Json :=
  match jsonLookup body "message" with
  | some m => if jsTruthy m then m else .str (getErrorMessage status)
  | none => .str (getErrorMessage status)

/-- `apiV2Fetch` (scheduleApi.ts lines 443-480), for the case where a
response arrived (the surrounding network-failure catch is out of scope of
the per-response claims).  On success the returned JS value is the
envelope object itself when `success === true`, else a fresh
`{success: true, data: body}` envelope. -/
def apiV2Fetch (r : Resp) : Except ScheduleHttpError Json :=
  if !respOk r.status || isSuccessFalse (effBody r) then
    .error ⟨r.status, errMessageV2 (effBody r) r.status, effBody r⟩
  else if isSuccessTrue (effBody r) then .ok (effBody r)
  else .ok (.obj [("success", .bool true), ("data", effBody r)])

/-- `defaultMessageForStatus` from `lib/routes.ts` (apiFetch variant). -/
def defaultMessageForStatus (status : Nat) : String :=
  if status == 400 then "Please fix the highlighted fields and try again."
  else if status == 401 then "Your session expired. Please sign in again."
  else if status == 403 then "You do not have permission to perform this action."
  else if status == 404 then "We couldn’t find what you’re looking for."
  else if status == 409 then "That action conflicts with the current state."
  else if status == 422 then "Please review the inputs and business rules."
  else if status == 429 then "You’re making requests too quickly. Please wait a moment."
  else if status == 500 then "Something went wrong on our side. Please try again."
  else if status == 502 || status == 503 || status == 504 then
    "Service is temporarily unavailable. Retrying may help."
  else "Unexpected error occurred."

/-- `HttpError(status, message, body)` raised by the `lib/routes.ts`
`apiFetch`; its body may be `undefined` (non-JSON or unparseable). -/
structure HttpError where
  status : Nat
  message : Json
  body : Option Json

/-- `(body as ApiError)?.message || defaultMessageForStatus(res.status)`. -/
def errMessageRoutes (body : Option Json) (status : Nat) : Json :=
  match body with
  | some j =>
    match jsonLookup j "message" with
    | some m => if jsTruthy m then m else .str (defaultMessageForStatus status)
    | none => .str (defaultMessageForStatus status)
  | none => .str (defaultMessageForStatus status)

/-- The body value `apiFetch` (routes.ts) works with: parsed only for
JSON content types, `undefined` otherwise or on a parse failure. -/
def routesBody (r : Resp) : Option Json :=
  if r.contentTypeJson then r.jsonBody else none

/-- `apiFetch` from `lib/routes.ts` (lines 199-246), for the case where a
response arrived: parses the body only for JSON content types, throws
`HttpError` only on non-2xx, maps 204 to an empty success envelope, and
otherwise returns the body (or an empty success envelope when the body is
absent or falsy). -/
def apiFetchRoutes (r : Resp) : Except HttpError Json :=
  if !respOk r.status then
    .error ⟨r.status, errMessageRoutes (routesBody r) r.status, routesBody r⟩
  else if r.status == 204 then .ok (.obj [("success", .bool true), ("data", .obj [])])
  else
    match routesBody r with
    | some j => if jsTruthy j then .ok j else .ok (.obj [("success", .bool true), ("data", .obj [])])
    | none => .ok (.obj [("success", .bool true), ("data", .obj [])])

/-- Whether an `Except` run raised. -/
def exceptRaised {ε α : Type} : Except ε α → Bool
  | .error _ => true
  | .ok _ => false

/-! ## Schedule service validations -/

/-- A calendar date as parsed from a `YYYY-MM-DD` string (proleptic
Gregorian; `new Date(s)` at UTC midnight, compared at day granularity —
the validations below only ever compare whole dates). -/
structure CivilDate where
  year : Nat
  month : Nat
  day : Nat
  deriving DecidableEq, Repr

/-- Day number of a civil date (days since 0000-03-01, month-shifted
civil-calendar formula); linear in `day`, so an out-of-range day rolls
over exactly as JS `Date.setFullYear` does to Feb 29. -/
def daysFromCivil (d : CivilDate) : Nat :=
  let y := if d.month ≤ 2 then d.year - 1 else d.year
  let era := y / 400
  let yoe := y % 400
  let mp := (d.month + 9) % 12
  let doy := (153 * mp + 2) / 5 + d.day - 1
  let doe := yoe * 365 + yoe / 4 - yoe / 100 + doy
  era * 146097 + doe

/-- `oneYearFromNow`: `new Date()` with `setFullYear(getFullYear() + 1)`. -/
def oneYearFromNow (now : CivilDate) : CivilDate :=
  { now with year := now.year + 1 }

/-- `ScheduleApiError(message, statusCode)` from `types` (the `errors`
payload is never set by the validations). -/
structure ScheduleApiError where
  message : String
  statusCode : Nat
  deriving DecidableEq, Repr

/-- Outcome of a domain API call: a validation throw before any network
activity, or the request being posted to the given endpoint path. -/
inductive GenOutcome where
  | thrown (e : ScheduleApiError) : GenOutcome
  | posted (path : String) : GenOutcome
  deriving DecidableEq, Repr

/-- `SCHEDULE_ENDPOINT` from `scheduleApi.ts`. -/
def SCHEDULE_ENDPOINT : String := "/api/v2/admin/schedule"

/-- `ScheduleApiService.validateDateRange` (scheduleApi.ts lines 351-369):
`none` models an unparseable date (`NaN` time value); note the third check
compares `end` against `now` plus one year, not against a span. -/
def validateDateRange (start end_ : Option CivilDate) (now : CivilDate) :
    Except ScheduleApiError Unit :=
  match start, end_ with
  | some s, some e =>
    if daysFromCivil s > daysFromCivil e then
      .error ⟨"Start date must be before or equal to end date", 400⟩
    else if daysFromCivil e > daysFromCivil (oneYearFromNow now) then
      .error ⟨"End date cannot be more than 1 year in the future", 400⟩
    else .ok ()
  | _, _ => .error ⟨"Invalid date format. Use YYYY-MM-DD", 400⟩

/-- A generate request after date parsing (the two date strings of
`GenerateScheduleRequest`). -/
structure GenerateScheduleRequest where
  start_date : Option CivilDate
  end_date : Option CivilDate
  deriving DecidableEq, Repr

/-- `ScheduleApiService.generateSchedule` (lines 237-241): validate the
range, then post to `${SCHEDULE_ENDPOINT}/generate`. -/
def generateSchedule (req : GenerateScheduleRequest) (now : CivilDate) : GenOutcome :=
  match validateDateRange req.start_date req.end_date now with
  | .error e => .thrown e
  | .ok _ => .posted (SCHEDULE_ENDPOINT ++ "/generate")

/-- One availability query of a batch request. -/
structure AvailabilityQuery where
  staff_id : String
  day : String
  time : String
  deriving DecidableEq, Repr

/-- `BatchAvailabilityRequest`. -/
structure BatchAvailabilityRequest where
  queries : List AvailabilityQuery
  deriving DecidableEq, Repr

/-- `ScheduleApiService.batchCheckAvailability` (lines 311-317): reject
batches of more than 500 queries with a typed 400 error, else post. -/
def batchCheckAvailability (request : BatchAvailabilityRequest) : GenOutcome :=
  if request.queries.length > 500 then
    .thrown ⟨"Maximum 500 queries allowed per batch", 400⟩
  else .posted (SCHEDULE_ENDPOINT ++ "/staff/check-availability/batch")

/-! ## Token store (`lib/api.ts`)

The browser storage is modelled explicitly: `localStorage` as a key-value
association list, and the cookie jar likewise at the *decoded* level
(`setCookie` writes `encodeURIComponent(value)` into `document.cookie` and
`getCookie` applies `decodeURIComponent`, which are mutually inverse, so
the jar holds the plain value; path/max-age attributes do not affect a
same-page read).  All operations below assume a browser context
(`isBrowser()` true) with no storage-quota failures. -/

/-- Association list with key `k` (re)bound to `v`. -/
def assocSet (l : List (String × String)) (k v : String) : List (String × String) :=
  match l with
  | [] => [(k, v)]
  | (k', v') :: rest => if k' == k then (k, v) :: rest else (k', v') :: assocSet rest k v

/-- Association list with key `k` removed. -/
def assocRemove (l : List (String × String)) (k : String) : List (String × String) :=
  match l with
  | [] => []
  | (k', v') :: rest => if k' == k then assocRemove rest k else (k', v') :: assocRemove rest k

/-- The browser storage visible to `lib/api.ts`. -/
structure ClientState where
  localStorage : List (String × String)
  cookies : List (String × String)
  deriving DecidableEq, Repr

/-- Empty cookie and `localStorage` state. -/
def emptyClient : ClientState := ⟨[], []⟩

/-- `COOKIE_NAME` (default `"access_token"`). -/
def COOKIE_NAME : String := "access_token"

/-- `LOCAL_STORAGE_KEYS` from `lib/api.ts`. -/
def LOCAL_STORAGE_KEYS : List String := ["authToken", "access_token", "auth_token"]

/-- `window.localStorage.getItem`. -/
def getItem (st : ClientState) (k : String) : Option String :=
  assocGet st.localStorage k

/-- `getCookie` from `lib/api.ts` (decoded value or `null`). -/
def getCookie (st : ClientState) (name : String) : Option String :=
  assocGet st.cookies name

/-- The `for (const key of LOCAL_STORAGE_KEYS) { token = getItem(key); if (token) break; }`
loop followed by `if (token) return token`: the first truthy hit, if any. -/
def firstTruthyItem (st : ClientState) : List String → Option String
  | [] => none
  | k :: rest =>
    match getItem st k with
    | some v => if v == "" then firstTruthyItem st rest else some v
    | none => firstTruthyItem st rest

/-- `getToken` from `lib/api.ts` (lines 42-62): `localStorage` first, then
the cookie fallback `getCookie('access_token') || getCookie(COOKIE_NAME) || getCookie('auth_token')`. -/
def getToken (st : ClientState) : Option String :=
  match firstTruthyItem st LOCAL_STORAGE_KEYS with
  | some t => some t
  | none => jsOrStr (getCookie st "access_token")
      (jsOrStr (getCookie st COOKIE_NAME) (getCookie st "auth_token"))

/-- `storeToken` from `lib/api.ts` (lines 64-75): both cookie names, then
the `authToken` and `access_token` `localStorage` entries. -/
def storeToken (token : String) (st : ClientState) : ClientState :=
  let st1 : ClientState := { st with cookies := assocSet st.cookies COOKIE_NAME token }
  let st2 : ClientState := { st1 with cookies := assocSet st1.cookies "access_token" token }
  let st3 : ClientState := { st2 with localStorage := assocSet st2.localStorage "authToken" token }
  { st3 with localStorage := assocSet st3.localStorage "access_token" token }

/-- `clearToken` from `lib/api.ts` (lines 77-89): delete both cookie names
and every `LOCAL_STORAGE_KEYS` entry. -/
def clearToken (st : ClientState) : ClientState :=
  let st1 : ClientState := { st with cookies := assocRemove st.cookies COOKIE_NAME }
  let st2 : ClientState := { st1 with cookies := assocRemove st1.cookies "access_token" }
  { st2 with
    localStorage := (LOCAL_STORAGE_KEYS.foldl (fun l k => assocRemove l k) st2.localStorage) }

/-! ## Auth session context (`lib/auth.tsx`) and the 401 path -/

/-- The profile shape `/me` may return (`Me` in `lib/api.ts`); only the
fields `normalizeUser` consults. -/
structure MeShape where
  id : Option String
  username : Option String
  role : Option String
  is_admin : Option Bool
  deriving DecidableEq, Repr

/-- `normalizeUser` from `lib/auth.tsx`: truthy `is_admin` or
`role === "admin"` give role `"admin"`, everything else defaults to
`"assistant"`; the id falls back `id || username || "user"`. -/
def normalizeUser (me : MeShape) : User :=
  let role := if me.is_admin == some true then "admin"
    else if me.role == some "admin" then "admin"
    else "assistant"
  let id := (jsOrStr me.id (jsOrStr me.username none)).getD "user"
  ⟨id, role⟩

/-- Outcome of `ApiV2.getMe()` as `bootstrap` branches on it:
`result.success && result.user`, or anything else (including a 401). -/
inductive MeResult where
  | success (me : MeShape) : MeResult
  | failure : MeResult
  deriving DecidableEq, Repr

/-- The non-mock `bootstrap` of `AuthProvider` (auth.tsx lines 79-122):
no token → anonymous; token present → `/me`; a success sets the
normalized user, any failure clears the token and sets `user = null`.
Returns `(user, loading, store)` after the bootstrap settles. -/
def bootstrap (st : ClientState) (me : MeResult) : Option User × Bool × ClientState :=
  match getToken st with
  | none => (none, false, st)
  | some token =>
    if token == "" then (none, false, st)
    else
      match me with
      | .success m => (some (normalizeUser m), false, st)
      | .failure => (none, false, clearToken st)

/-- The UI effect `useApiError.handleError` (types/registration.ts lines
62-140) performs for a typed `HttpError`, by status. -/
inductive ErrorEffect where
  | fieldErrors (errors : List (String × Json)) : ErrorEffect
  | bannerWarning (message : Json) : ErrorEffect
  | bannerError (message : Json) : ErrorEffect
  | toastInfo (message : Json) : ErrorEffect
  | toastWarning (message : Json) : ErrorEffect
  | toastError (message : Json) : ErrorEffect
  | bannerConflict (message : Json) : ErrorEffect
  | navigate (path : String) : ErrorEffect

/-- `useApiError.handleError` on a typed `HttpError` with the given
status, message and parsed body.  The 401 arm only assigns
`window.location.href = "/auth/session-expired"`; no arm touches the
token store or the auth context. -/
def handleApiError (status : Nat) (message : Json) (body : Option Json) : ErrorEffect :=
  if status == 400 || status == 422 then
    match (body.bind (fun j => jsonLookup j "errors")) with
    | some (.obj fields) =>
      if fields.length > 0 then .fieldErrors fields else .toastWarning message
    | _ => .toastWarning message
  else if status == 401 then .navigate "/auth/session-expired"
  else if status == 403 then .bannerError message
  else if status == 404 then .toastInfo message
  else if status == 409 then .bannerConflict message
  else if status == 429 then .toastWarning message
  else if status == 500 || status == 502 || status == 503 || status == 504 then
    .bannerError message
  else .toastError message

/-- A 401 reaching an already-authenticated client: the `HttpError(401)`
raised by `apiFetch` propagates to `useApiError.handleError`, whose 401
arm redirects; along the whole path neither `clearToken` nor `setUser`
is invoked, so the storage and the auth context are returned unchanged. -/
def receive401WhileAuthenticated (st : ClientState) (user : Option User)
    (body : Option Json) : ClientState × Option User × ErrorEffect :=
  (st, user, handleApiError 401 (errMessageRoutes body 401) body)

/-! ## Theorems settling the claims -/

/-- C8 (counterexample): the claim quantifies over *every* token string,
but storing the empty string and reading back yields `null`, not `""`:
the truthiness checks in `getToken` skip empty `localStorage` entries and
empty cookie values. -/
theorem C8_counterexample :
    getToken (storeToken "" emptyClient) = none
    ∧ (none : Option String) ≠ some "" := by
  exact ⟨rfl, by decide⟩

/-- C8 (amended): for every *nonempty* token string `t`, storing into the
empty browser state and immediately reading returns exactly `t`; clearing
(after a store, or on the empty state) and reading returns `null`. -/
theorem C8_tokenRoundTrip (t : String) (h : t ≠ "") :
    getToken (storeToken t emptyClient) = some t
    ∧ getToken (clearToken (storeToken t emptyClient)) = none
    ∧ getToken (clearToken emptyClient) = none := by
  refine ⟨?_, rfl, rfl⟩
  have hb : (t == "") = false := by
    cases hbe : t == "" with
    | false => rfl
    | true => exact absurd (eq_of_beq hbe) h
  simp [getToken, storeToken, emptyClient, assocSet, firstTruthyItem, getItem,
    LOCAL_STORAGE_KEYS, COOKIE_NAME, assocGet, hb]

/-- C8 witness: the round trip at the concrete token `"tok"`. -/
theorem C8_tokenRoundTrip_witness :
    getToken (storeToken "tok" emptyClient) = some "tok"
    ∧ getToken (clearToken (storeToken "tok" emptyClient)) = none
    ∧ getToken (clearToken emptyClient) = none :=
  C8_tokenRoundTrip "tok" (by decide)

/-- C9: `batchCheckAvailability` throws the typed 400 error (and performs
no network call) exactly on batches of more than 500 queries; any batch of
at most 500 queries is posted to the batch endpoint. -/
theorem C9_batchCap (qs1 qs2 : List AvailabilityQuery)
    (h1 : qs1.length > 500) (h2 : qs2.length ≤ 500) :
    batchCheckAvailability ⟨qs1⟩ = .thrown ⟨"Maximum 500 queries allowed per batch", 400⟩
    ∧ batchCheckAvailability ⟨qs2⟩ =
        .posted (SCHEDULE_ENDPOINT ++ "/staff/check-availability/batch") := by
  constructor
  · simp [batchCheckAvailability, h1]
  · simp [batchCheckAvailability, Nat.not_lt.mpr h2]

/-- C9 witness: a batch of 501 queries is rejected with the typed 400
error, the empty batch is posted. -/
theorem C9_batchCap_witness :
    batchCheckAvailability ⟨List.replicate 501 ⟨"s1", "Monday", "09:00"⟩⟩ =
      .thrown ⟨"Maximum 500 queries allowed per batch", 400⟩
    ∧ batchCheckAvailability ⟨[]⟩ =
        .posted (SCHEDULE_ENDPOINT ++ "/staff/check-availability/batch") :=
  C9_batchCap (List.replicate 501 ⟨"s1", "Monday", "09:00"⟩) []
    (by rw [List.length_replicate]; decide) (by simp)

/-- C10: any pathname containing a dot short-circuits the middleware to
`NextResponse.next()` — for every cookie jar and every verification
outcome, so the token is never consulted — including dotted paths under
the protected `/admin/`, `/assist/`, `/student/` prefixes. -/
theorem C10_dottedPathBypass (env : MwEnv) (verify : String → Option Claims)
    (cookies : List (String × String)) (pathname : String)
    (hdot : strContainsChar pathname '.' = true) :
    middleware env verify cookies pathname = .next := by
  have hs : staticSkip pathname = true := by
    unfold staticSkip
    rw [hdot]
    simp
  simp [middleware, hs]

/-- C10 witness: `/admin/secret.txt` passes through even with a cookie
present whose token would verify to a non-admin role. -/
theorem C10_dottedPathBypass_witness :
    middleware ⟨"access_token", "", "assistant"⟩
      (fun _ => some ⟨some "assistant", none, none⟩)
      [("access_token", "tok")] "/admin/secret.txt" = .next :=
  C10_dottedPathBypass _ _ _ _ (by decide)

/-- C3 (counterexample): a request spanning 517 days (2020-01-01 to
2021-06-01, far over the claimed 366-day cap) is *sent*, not rejected,
when the current date is 2026-10-11, because the code only compares the
end date against `now` plus one year and never computes a span. -/
theorem C3_counterexample :
    daysFromCivil ⟨2021, 6, 1⟩ - daysFromCivil ⟨2020, 1, 1⟩ = 517
    ∧ 517 > 366
    ∧ daysFromCivil ⟨2020, 1, 1⟩ ≤ daysFromCivil ⟨2021, 6, 1⟩
    ∧ generateSchedule ⟨some ⟨2020, 1, 1⟩, some ⟨2021, 6, 1⟩⟩ ⟨2026, 10, 11⟩ =
        .posted (SCHEDULE_ENDPOINT ++ "/generate") := by
  refine ⟨by decide, by decide, by decide, by decide⟩

/-- C3 (amended): `generateSchedule` throws a typed 400 error before any
network call exactly when a date is unparseable, when `end_date` is
earlier than `start_date`, or when `end_date` is later than one year from
the current date; every other date pair is posted — the span between the
two dates is never bounded. -/
theorem C3_generateScheduleValidation (s1 e1 s2 e2 s3 e3 now : CivilDate)
    (h1 : daysFromCivil s1 > daysFromCivil e1)
    (h2a : daysFromCivil s2 ≤ daysFromCivil e2)
    (h2b : daysFromCivil e2 > daysFromCivil (oneYearFromNow now))
    (h3a : daysFromCivil s3 ≤ daysFromCivil e3)
    (h3b : daysFromCivil e3 ≤ daysFromCivil (oneYearFromNow now)) :
    generateSchedule ⟨some s1, some e1⟩ now =
      .thrown ⟨"Start date must be before or equal to end date", 400⟩
    ∧ generateSchedule ⟨some s2, some e2⟩ now =
        .thrown ⟨"End date cannot be more than 1 year in the future", 400⟩
    ∧ generateSchedule ⟨none, some e1⟩ now =
        .thrown ⟨"Invalid date format. Use YYYY-MM-DD", 400⟩
    ∧ generateSchedule ⟨some s3, none⟩ now =
        .thrown ⟨"Invalid date format. Use YYYY-MM-DD", 400⟩
    ∧ generateSchedule ⟨some s3, some e3⟩ now =
        .posted (SCHEDULE_ENDPOINT ++ "/generate") := by
  refine ⟨?_, ?_, rfl, rfl, ?_⟩
  · simp [generateSchedule, validateDateRange, h1]
  · simp [generateSchedule, validateDateRange, Nat.not_lt.mpr h2a, h2b]
  · simp [generateSchedule, validateDateRange, Nat.not_lt.mpr h3a, Nat.not_lt.mpr h3b]

/-- C3 witness: with the current date 2026-10-11 — a reversed pair throws
the ordering error, an end date past 2027-10-11 throws the 1-year error,
an unparseable date throws the format error, and an in-range pair is
posted. -/
theorem C3_generateScheduleValidation_witness :
    generateSchedule ⟨some ⟨2026, 5, 1⟩, some ⟨2026, 4, 1⟩⟩ ⟨2026, 10, 11⟩ =
      .thrown ⟨"Start date must be before or equal to end date", 400⟩
    ∧ generateSchedule ⟨some ⟨2027, 1, 1⟩, some ⟨2028, 6, 1⟩⟩ ⟨2026, 10, 11⟩ =
        .thrown ⟨"End date cannot be more than 1 year in the future", 400⟩
    ∧ generateSchedule ⟨none, some ⟨2026, 4, 1⟩⟩ ⟨2026, 10, 11⟩ =
        .thrown ⟨"Invalid date format. Use YYYY-MM-DD", 400⟩
    ∧ generateSchedule ⟨some ⟨2026, 10, 1⟩, none⟩ ⟨2026, 10, 11⟩ =
        .thrown ⟨"Invalid date format. Use YYYY-MM-DD", 400⟩
    ∧ generateSchedule ⟨some ⟨2026, 10, 1⟩, some ⟨2026, 12, 1⟩⟩ ⟨2026, 10, 11⟩ =
        .posted (SCHEDULE_ENDPOINT ++ "/generate") :=
  C3_generateScheduleValidation ⟨2026, 5, 1⟩ ⟨2026, 4, 1⟩ ⟨2027, 1, 1⟩ ⟨2028, 6, 1⟩
    ⟨2026, 10, 1⟩ ⟨2026, 12, 1⟩ ⟨2026, 10, 11⟩
    (by decide) (by decide) (by decide) (by decide) (by decide)

/-- Helper: `a == b` is false exactly for unequal values (specialised to
`String` to keep rewriting explicit). -/
theorem strBeqFalse {a b : String} (h : a ≠ b) : (a == b) = false := by
  cases hbe : a == b with
  | false => rfl
  | true => exact absurd (eq_of_beq hbe) h

/-- C1 (counterexample): on the assistant-gated path `/assist`, the edge
middleware's `isAuthorizedForPath` also admits a token whose role is
`"student"` — a role that is neither `"assistant"` nor `"admin"`, so the
two guards do not admit exactly the same set of roles. -/
theorem C1_counterexample :
    isAuthorizedForPath "/assist" (some "student") = true
    ∧ ("student" : String) ≠ "assistant"
    ∧ ("student" : String) ≠ "admin"
    ∧ requireRoleAllow "assistant" (some ⟨"u1", "student"⟩) = false := by
  refine ⟨rfl, by decide, by decide, rfl⟩

/-- C1 (amended): the client-side guard admits exactly as claimed (for
required role `"assistant"`: roles `"assistant"` and `"admin"`; otherwise
an exact match; no user is rejected).  The middleware behaves the same
except that it first normalizes `"student"` to `"assistant"`, so
assistant-gated paths admit exactly `"assistant"`, `"admin"` and
`"student"`, while admin paths still demand exactly `"admin"`; an absent
role is rejected. -/
theorem C1_roleGuards (required r p q : String) (u : User)
    (hreq : required ≠ "assistant")
    (hp : (isStudentRoute p || isAssistRoute p) = true)
    (hpAdmin : isAdminRoute p = false)
    (hq : isAdminRoute q = true) :
    requireRoleAllow "assistant" (some u) = (u.role == "assistant" || u.role == "admin")
    ∧ requireRoleAllow required (some u) = (u.role == required)
    ∧ requireRoleAllow required none = false
    ∧ requireRoleAllow "assistant" none = false
    ∧ isAuthorizedForPath p (some r) = (r == "assistant" || r == "admin" || r == "student")
    ∧ isAuthorizedForPath q (some r) = (r == "admin")
    ∧ isAuthorizedForPath p none = false
    ∧ isAuthorizedForPath q none = false := by
  refine ⟨by simp [requireRoleAllow], ?_, rfl, rfl, ?_, ?_, rfl, rfl⟩
  · simp [requireRoleAllow, strBeqFalse hreq]
  · by_cases h0 : r = ""
    · subst h0; rfl
    · by_cases hst : r = "student"
      · subst hst
        simp [isAuthorizedForPath, hpAdmin, hp]
      · simp [isAuthorizedForPath, strBeqFalse h0, strBeqFalse hst, hpAdmin, hp]
  · by_cases h0 : r = ""
    · subst h0; rfl
    · by_cases hst : r = "student"
      · subst hst
        simp [isAuthorizedForPath, hq]
      · simp [isAuthorizedForPath, strBeqFalse h0, strBeqFalse hst, hq]

/-- C1 witness: the amended guard behaviour at required role `"admin"`,
token role `"admin"`, paths `/assist` and `/admin`. -/
theorem C1_roleGuards_witness :
    requireRoleAllow "admin" (some (User.mk "u1" "admin")) = true
    ∧ isAuthorizedForPath "/assist" (some "admin") = true := by
  have h := C1_roleGuards "admin" "admin" "/assist" "/admin" (User.mk "u1" "admin")
    (by decide) (by decide) (by decide) (by decide)
  exact ⟨h.2.1, h.2.2.2.2.1⟩

/-- Reduction of the middleware on a protected, non-static path in a
non-mock configuration: only the token branch remains. -/
theorem middleware_protected (env : MwEnv) (vf : String → Option Claims)
    (cs : List (String × String)) (p : String)
    (hmode : (env.authMode == "mock") = false)
    (hprot : (isAdminRoute p || isAssistRoute p || isStudentRoute p) = true)
    (hskip : staticSkip p = false) :
    middleware env vf cs p =
      match assocGet cs env.cookieName with
      | none => .redirect "/auth/login"
      | some token =>
        if token == "" then .redirect "/auth/login"
        else
          match vf token with
          | none => .redirect "/auth/login"
          | some claims =>
            if !isAuthorizedForPath p (resolveRole claims) then .redirect "/unauthorized"
            else .next := by
  unfold middleware
  rw [hskip, hprot, hmode]
  rfl

/-- C7: on a protected, non-static path with a non-mock configuration,
the middleware redirects to `/auth/login` both when the token cookie is
absent and when the present token fails verification — the two responses
are the identical redirect — and it redirects to `/unauthorized` only
when a token verified successfully and the resolved role is not
authorized for the path. -/
theorem C7_edgeGuard (env : MwEnv) (verify verify2 : String → Option Claims)
    (cookies2 : List (String × String)) (p t : String) (c : Claims)
    (hmode : env.authMode ≠ "mock")
    (hprot : (isAdminRoute p || isAssistRoute p || isStudentRoute p) = true)
    (hskip : staticSkip p = false)
    (hc2 : assocGet cookies2 env.cookieName = some t) (ht : t ≠ "")
    (hv : verify t = none)
    (hv2 : verify2 t = some c)
    (hbad : isAuthorizedForPath p (resolveRole c) = false) :
    middleware env verify [] p = .redirect "/auth/login"
    ∧ middleware env verify cookies2 p = .redirect "/auth/login"
    ∧ middleware env verify2 cookies2 p = .redirect "/unauthorized"
    ∧ ∀ (vf : String → Option Claims) (cs : List (String × String)),
        middleware env vf cs p = .redirect "/unauthorized" →
        ∃ tk cl, assocGet cs env.cookieName = some tk ∧ vf tk = some cl
          ∧ isAuthorizedForPath p (resolveRole cl) = false := by
  have hm : (env.authMode == "mock") = false := strBeqFalse hmode
  have htb : (t == "") = false := strBeqFalse ht
  refine ⟨?_, ?_, ?_, ?_⟩
  · rw [middleware_protected env verify [] p hm hprot hskip]
    rfl
  · rw [middleware_protected env verify cookies2 p hm hprot hskip]
    simp only [hc2, htb, hv, Bool.false_eq_true, if_false]
  · rw [middleware_protected env verify2 cookies2 p hm hprot hskip]
    simp only [hc2, htb, hv2, hbad, Bool.false_eq_true, if_false, Bool.not_false, if_true]
  · intro vf cs hred
    rw [middleware_protected env vf cs p hm hprot hskip] at hred
    cases hcs : assocGet cs env.cookieName with
    | none =>
      simp only [hcs] at hred
      exact absurd hred (by decide)
    | some tk =>
      simp only [hcs] at hred
      by_cases htk : tk = ""
      · subst htk
        exact absurd
          (show MwResponse.redirect "/auth/login" = MwResponse.redirect "/unauthorized" from hred)
          (by decide)
      · rw [strBeqFalse htk] at hred
        have hred2 :
            (match vf tk with
              | none => MwResponse.redirect "/auth/login"
              | some claims =>
                if !isAuthorizedForPath p (resolveRole claims) then
                  MwResponse.redirect "/unauthorized"
                else MwResponse.next) = MwResponse.redirect "/unauthorized" := hred
        cases hvf : vf tk with
        | none =>
          simp only [hvf] at hred2
          exact absurd hred2 (by decide)
        | some cl =>
          simp only [hvf] at hred2
          cases hauth : isAuthorizedForPath p (resolveRole cl) with
          | false => exact ⟨tk, cl, rfl, hvf, hauth⟩
          | true =>
            rw [hauth] at hred2
            exact absurd
              (show MwResponse.next = MwResponse.redirect "/unauthorized" from hred2)
              (by decide)

/-- C7 witness: path `/admin/reports`, default non-mock environment — no
cookie and a failing verification both answer the login redirect, and an
assistant token on an admin path answers the unauthorized redirect. -/
theorem C7_edgeGuard_witness :
    middleware ⟨"access_token", "", "assistant"⟩ (fun _ => none) [] "/admin/reports" =
      .redirect "/auth/login"
    ∧ middleware ⟨"access_token", "", "assistant"⟩ (fun _ => none)
        [("access_token", "tok")] "/admin/reports" = .redirect "/auth/login"
    ∧ middleware ⟨"access_token", "", "assistant"⟩
        (fun _ => some ⟨some "assistant", none, none⟩)
        [("access_token", "tok")] "/admin/reports" = .redirect "/unauthorized" := by
  have h := C7_edgeGuard ⟨"access_token", "", "assistant"⟩ (fun _ => none)
    (fun _ => some ⟨some "assistant", none, none⟩) [("access_token", "tok")]
    "/admin/reports" "tok" ⟨some "assistant", none, none⟩
    (by decide) (by decide) (by decide) rfl (by decide) rfl rfl rfl
  exact ⟨h.1, h.2.1, h.2.2.1⟩

/-- C2 (counterexample): the `retryWithBackoff` helper — one of the two
retry policies — retries a typed HTTP error with status 400 (< 500) two
more times instead of rethrowing after exactly one attempt, sleeping
`400 * 2 ^ i` (uncapped) after every failure including the last. -/
theorem C2_counterexample :
    isClientError (.api 400 "Bad Request") = true
    ∧ retryWithBackoff (fun _ => (Except.error (.api 400 "Bad Request") : Except JsError Nat))
        3 400 =
        ⟨.error (some (.api 400 "Bad Request")), 3, [400, 800, 1600]⟩
    ∧ (3 : Nat) ≠ 1 := by
  refine ⟨rfl, rfl, by decide⟩

/-- C2 (amended): `ApiClient.fetchWithRetry` behaves exactly as claimed —
a typed error with status < 500 is rethrown after a single attempt;
errors with status ≥ 500 and network failures are retried up to the
configured 3 attempts with `min(1000 * 2^(attempt-1), 5000)` ms waits
before each retry, the last error being rethrown at the end (a network
failure wrapped as a typed status-0 error).  The `retryWithBackoff`
helper instead retries every failure, with uncapped `base * 2^i` waits
after each attempt. -/
theorem C2_retryPolicies {α : Type} (outcome outcome2 : Nat → Except JsError α)
    (s : Nat) (m : String) (e1 e2 e3 : JsError)
    (hs : s < 500)
    (h1 : outcome 1 = .error (.api s m))
    (h2a : outcome2 1 = .error e1) (h2b : outcome2 2 = .error e2)
    (h2c : outcome2 3 = .error e3)
    (hr1 : isClientError e1 = false) (hr2 : isClientError e2 = false)
    (hr3 : isClientError e3 = false) :
    fetchWithRetry RETRY_CONFIG outcome = ⟨.error (.api s m), 1, []⟩
    ∧ fetchWithRetry RETRY_CONFIG outcome2 =
        ⟨.error (finalizeError e3), 3,
          [min (1000 * 2 ^ 0) 5000, min (1000 * 2 ^ 1) 5000]⟩
    ∧ ∀ (outcome3 : Nat → Except JsError α) (f : JsError),
        (∀ i, outcome3 i = .error f) →
        retryWithBackoff outcome3 3 400 =
          ⟨.error (some f), 3, [400 * 2 ^ 0, 400 * 2 ^ 1, 400 * 2 ^ 2]⟩ := by
  have hcl : isClientError (.api s m) = true := by
    simp [isClientError, hs]
  refine ⟨?_, ?_, ?_⟩
  · simp [fetchWithRetry, fetchWithRetryGo, RETRY_CONFIG, h1, hcl]
  · simp [fetchWithRetry, fetchWithRetryGo, RETRY_CONFIG, h2a, h2b, h2c, hr1, hr2, hr3]
  · intro outcome3 f hf
    simp [retryWithBackoff, retryWithBackoffGo, hf]

/-- C2 witness: a 400 error is rethrown by `fetchWithRetry` after one
attempt, a network failure is retried three times then wrapped, and
`retryWithBackoff` retries the 400 error three times. -/
theorem C2_retryPolicies_witness :
    fetchWithRetry RETRY_CONFIG
        (fun _ => (Except.error (.api 400 "Bad Request") : Except JsError Nat)) =
      ⟨.error (.api 400 "Bad Request"), 1, []⟩
    ∧ fetchWithRetry RETRY_CONFIG
        (fun _ => (Except.error (.network "fetch failed") : Except JsError Nat)) =
        ⟨.error (finalizeError (.network "fetch failed")), 3,
          [min (1000 * 2 ^ 0) 5000, min (1000 * 2 ^ 1) 5000]⟩
    ∧ retryWithBackoff
        (fun _ => (Except.error (.api 400 "Bad Request") : Except JsError Nat)) 3 400 =
        ⟨.error (some (.api 400 "Bad Request")), 3, [400 * 2 ^ 0, 400 * 2 ^ 1, 400 * 2 ^ 2]⟩ := by
  have h := C2_retryPolicies (α := Nat)
    (fun _ => .error (.api 400 "Bad Request"))
    (fun _ => .error (.network "fetch failed"))
    400 "Bad Request" (.network "fetch failed") (.network "fetch failed")
    (.network "fetch failed")
    (by decide) rfl rfl rfl rfl rfl rfl rfl
  exact ⟨h.1, h.2.1, h.2.2 _ _ (fun _ => rfl)⟩

/-- Helper: `apiV2Fetch` on the raising branch. -/
theorem apiV2Fetch_error (r : Resp)
    (hcond : (!respOk r.status || isSuccessFalse (effBody r)) = true) :
    apiV2Fetch r = .error ⟨r.status, errMessageV2 (effBody r) r.status, effBody r⟩ := by
  unfold apiV2Fetch
  rw [hcond]
  rfl

/-- Helper: the routes.ts `apiFetch` on the raising branch. -/
theorem apiFetchRoutes_error (r : Resp) (h : respOk r.status = false) :
    apiFetchRoutes r = .error ⟨r.status, errMessageRoutes (routesBody r) r.status, routesBody r⟩ := by
  unfold apiFetchRoutes
  rw [h]
  rfl

/-- C5 (counterexample): the `lib/routes.ts` `apiFetch` wrapper does
*not* raise on a 2xx response whose body has `success: false` — it
returns the body as a success value — so "raises iff non-2xx or
`success === false`" fails for it. -/
theorem C5_counterexample :
    isSuccessFalse (Json.obj [("success", Json.bool false), ("message", Json.str "nope")]) = true
    ∧ respOk 200 = true
    ∧ apiFetchRoutes ⟨200, true,
        some (.obj [("success", .bool false), ("message", .str "nope")])⟩ =
        .ok (.obj [("success", .bool false), ("message", .str "nope")]) := by
  exact ⟨rfl, rfl, rfl⟩

/-- C5 (amended): `apiV2Fetch` raises a typed error carrying the status
and parsed body exactly when the status is outside 2xx or the body's
`success` field is `=== false`, with the message being the server's when
truthy and otherwise a default keyed by the status; the `lib/routes.ts`
`apiFetch` raises (same message rule, body possibly absent) exactly when
the status is outside 2xx — a 2xx `success: false` body is returned, not
raised. -/
theorem C5_errorClassification (status1 status2 : Nat) (bodyF : Json)
    (ct : Bool) (jb : Option Json) (r : Resp)
    (hbad : respOk status1 = false)
    (hok : respOk status2 = true)
    (hsf : isSuccessFalse bodyF = true) :
    exceptRaised (apiV2Fetch r) = (!respOk r.status || isSuccessFalse (effBody r))
    ∧ apiV2Fetch ⟨status2, true, some bodyF⟩ =
        .error ⟨status2, errMessageV2 bodyF status2, bodyF⟩
    ∧ apiV2Fetch ⟨status1, ct, jb⟩ =
        .error ⟨status1, errMessageV2 (effBody ⟨status1, ct, jb⟩) status1,
          effBody ⟨status1, ct, jb⟩⟩
    ∧ exceptRaised (apiFetchRoutes r) = !respOk r.status
    ∧ apiFetchRoutes ⟨status1, true, some bodyF⟩ =
        .error ⟨status1, errMessageRoutes (some bodyF) status1, some bodyF⟩ := by
  refine ⟨?_, ?_, ?_, ?_, ?_⟩
  · unfold apiV2Fetch
    cases hcond : (!respOk r.status || isSuccessFalse (effBody r)) with
    | true => rfl
    | false =>
      cases hst : isSuccessTrue (effBody r) with
      | true => rfl
      | false => rfl
  · exact apiV2Fetch_error ⟨status2, true, some bodyF⟩
      (show (!respOk status2 || isSuccessFalse bodyF) = true by rw [hok, hsf]; rfl)
  · exact apiV2Fetch_error ⟨status1, ct, jb⟩
      (show (!respOk status1 || isSuccessFalse (effBody ⟨status1, ct, jb⟩)) = true by
        rw [hbad]; rfl)
  · unfold apiFetchRoutes
    cases hro : respOk r.status with
    | false => rfl
    | true =>
      show exceptRaised
        (if (r.status == 204) = true then
          Except.ok (Json.obj [("success", Json.bool true), ("data", Json.obj [])])
        else
          match routesBody r with
          | some j =>
            if jsTruthy j then Except.ok j
            else Except.ok (Json.obj [("success", Json.bool true), ("data", Json.obj [])])
          | none => Except.ok (Json.obj [("success", Json.bool true), ("data", Json.obj [])])) =
        false
      cases h204 : (r.status == 204) with
      | true => rfl
      | false =>
        show exceptRaised
          (match routesBody r with
          | some j =>
            if jsTruthy j then Except.ok j
            else Except.ok (Json.obj [("success", Json.bool true), ("data", Json.obj [])])
          | none => Except.ok (Json.obj [("success", Json.bool true), ("data", Json.obj [])])) =
          false
        cases hb : routesBody r with
        | none => rfl
        | some j =>
          show exceptRaised
            (if jsTruthy j then Except.ok j
            else Except.ok (Json.obj [("success", Json.bool true), ("data", Json.obj [])])) =
            false
          cases hj : jsTruthy j with
          | true => rfl
          | false => rfl
  · exact apiFetchRoutes_error ⟨status1, true, some bodyF⟩ hbad

/-- C5 witness: a 2xx `success:false` body raises from `apiV2Fetch`
(carrying status and body), a 404 with no JSON body raises from both
wrappers with the default message for 404. -/
theorem C5_errorClassification_witness :
    apiV2Fetch ⟨200, true, some (Json.obj [("success", Json.bool false), ("message", Json.str "nope")])⟩ =
      .error ⟨200,
        errMessageV2 (Json.obj [("success", Json.bool false), ("message", Json.str "nope")]) 200,
        Json.obj [("success", Json.bool false), ("message", Json.str "nope")]⟩
    ∧ apiV2Fetch ⟨404, false, none⟩ =
        .error ⟨404, errMessageV2 (effBody ⟨404, false, none⟩) 404, effBody ⟨404, false, none⟩⟩
    ∧ apiFetchRoutes ⟨404, true,
        some (Json.obj [("success", Json.bool false), ("message", Json.str "nope")])⟩ =
        .error ⟨404,
          errMessageRoutes (some (Json.obj [("success", Json.bool false), ("message", Json.str "nope")])) 404,
          some (Json.obj [("success", Json.bool false), ("message", Json.str "nope")])⟩ := by
  have h := C5_errorClassification 404 200
    (Json.obj [("success", Json.bool false), ("message", Json.str "nope")])
    false none ⟨200, true, some (Json.obj [])⟩ rfl rfl rfl
  exact ⟨h.2.1, h.2.2.1, h.2.2.2.2⟩

/-- C6 (counterexample): with a stored token and an authenticated user, a
401 arriving on an authenticated call is handled by redirecting to the
session-expired page — the token store and the user state are left
untouched, so the token is *not* cleared and the user does *not* become
anonymous. -/
theorem C6_counterexample :
    receive401WhileAuthenticated (storeToken "tok" emptyClient)
        (some ⟨"u1", "assistant"⟩) (some (.obj [])) =
      (storeToken "tok" emptyClient, some ⟨"u1", "assistant"⟩,
        .navigate "/auth/session-expired")
    ∧ getToken (storeToken "tok" emptyClient) = some "tok" := by
  exact ⟨rfl, rfl⟩

/-- C6 (amended): only the bootstrap "who am I" validation clears on
failure: with a (nonempty) stored token, a failing `/me` call during
bootstrap clears the token and leaves the user `null`; a 401 on any other
authenticated call while authenticated merely navigates to
`/auth/session-expired`, leaving the stored token and the user state
unchanged. -/
theorem C6_authOn401 (st : ClientState) (u : User) (t : String) (body : Option Json)
    (ht : getToken st = some t) (hne : t ≠ "") :
    bootstrap st .failure = (none, false, clearToken st)
    ∧ receive401WhileAuthenticated st (some u) body =
        (st, some u, .navigate "/auth/session-expired")
    ∧ getToken (clearToken (storeToken t emptyClient)) = none := by
  refine ⟨?_, rfl, rfl⟩
  unfold bootstrap
  rw [ht]
  show (if (t == "") = true then ((none : Option User), false, st)
    else ((none : Option User), false, clearToken st)) =
    ((none : Option User), false, clearToken st)
  rw [strBeqFalse hne]
  rfl

/-- C6 witness: concrete state with token `"tok"` and an authenticated
assistant user. -/
theorem C6_authOn401_witness :
    bootstrap (storeToken "tok" emptyClient) .failure =
      (none, false, clearToken (storeToken "tok" emptyClient))
    ∧ receive401WhileAuthenticated (storeToken "tok" emptyClient)
        (some ⟨"u1", "assistant"⟩) none =
        (storeToken "tok" emptyClient, some ⟨"u1", "assistant"⟩,
          .navigate "/auth/session-expired") := by
  have h := C6_authOn401 (storeToken "tok" emptyClient) ⟨"u1", "assistant"⟩ "tok" none
    rfl (by decide)
  exact ⟨h.1, h.2.1⟩

end HelpDesk
